import Mathlib

/- Verification of the XC-functional identity model (pymatgen/io/abinit/xc.py).

   The module stores information about an exchange-correlation functional,
   identified either by a single combined libxc code or by an
   (exchange, correlation) pair of libxc codes.  It provides three
   constructors (direct, from an Abinit ixc legacy string, from a
   registered alias name) and derives `type`, `name` and `type_name`
   through a static alias registry, with name-based equality and hashing.

   The libxc enumeration itself lives in `libxcfuncs.py`, which is not part
   of the sources verified here; it is modelled from the specification of
   the external Functional Code Provider (an opaque enumeration exposing a
   `name` string and the two kind predicates `is_x_kind` / `is_c_kind`,
   exactly one of which holds for each value, plus resolution of a libxc
   integer code to a member). -/

/-- Modelled from the spec: the external libxc functional enumeration
(`LibxcFuncs` in `libxcfuncs.py`, absent from the verified sources).  Only
the members referenced by `xc.py`, plus the exchange-kind member that the
spec says the integer code 999 resolves to, are included. -/
inductive LibxcFuncs where
  | LDA_X
  | LDA_C_PW
  | GGA_X_PW91
  | GGA_C_PW91
  | GGA_X_PBE
  | GGA_C_PBE
  | GGA_X_RPBE
  | GGA_X_PBE_R
  | GGA_X_PBE_SOL
  | GGA_C_PBE_SOL
  | GGA_X_AM05
  | GGA_C_AM05
  | GGA_X_B88
  | GGA_C_LYP
  | X_999
  deriving DecidableEq

/-- Modelled from the spec: the `name` attribute of an enumeration member
(the libxc functional name string, e.g. "GGA_X_PBE"). -/
def LibxcFuncs.name : LibxcFuncs → String
  | .LDA_X => ("LDA_X")
  | .LDA_C_PW => ("LDA_C_PW")
  | .GGA_X_PW91 => ("GGA_X_PW91")
  | .GGA_C_PW91 => ("GGA_C_PW91")
  | .GGA_X_PBE => ("GGA_X_PBE")
  | .GGA_C_PBE => ("GGA_C_PBE")
  | .GGA_X_RPBE => ("GGA_X_RPBE")
  | .GGA_X_PBE_R => ("GGA_X_PBE_R")
  | .GGA_X_PBE_SOL => ("GGA_X_PBE_SOL")
  | .GGA_C_PBE_SOL => ("GGA_C_PBE_SOL")
  | .GGA_X_AM05 => ("GGA_X_AM05")
  | .GGA_C_AM05 => ("GGA_C_AM05")
  | .GGA_X_B88 => ("GGA_X_B88")
  | .GGA_C_LYP => ("GGA_C_LYP")
  | .X_999 => ("X_999")

/-- Modelled from the spec: the `is_x_kind` predicate of an enumeration
member (true exactly for exchange-kind codes). -/
def LibxcFuncs.is_x_kind : LibxcFuncs → Bool
  | .LDA_X => true
  | .GGA_X_PW91 => true
  | .GGA_X_PBE => true
  | .GGA_X_RPBE => true
  | .GGA_X_PBE_R => true
  | .GGA_X_PBE_SOL => true
  | .GGA_X_AM05 => true
  | .GGA_X_B88 => true
  | .X_999 => true
  | _ => false

/-- Modelled from the spec: the `is_c_kind` predicate of an enumeration
member (true exactly for correlation-kind codes; per the spec exactly one
of the two kind predicates holds for each value). -/
def LibxcFuncs.is_c_kind : LibxcFuncs → Bool
  | .LDA_C_PW => true
  | .GGA_C_PW91 => true
  | .GGA_C_PBE => true
  | .GGA_C_PBE_SOL => true
  | .GGA_C_AM05 => true
  | .GGA_C_LYP => true
  | _ => false

/-- Modelled from the spec: the numeric libxc code of each modelled member,
used to resolve an integer parsed from the packed six-digit Abinit form to
an enumeration member.  Per the spec, the integer 999 resolves to an
exchange-kind code. -/
def libxc_codes : List (Nat × LibxcFuncs) :=
  [(1, .LDA_X), (12, .LDA_C_PW), (101, .GGA_X_PBE), (102, .GGA_X_PBE_R),
   (106, .GGA_X_B88), (109, .GGA_X_PW91), (116, .GGA_X_PBE_SOL),
   (117, .GGA_X_RPBE), (120, .GGA_X_AM05), (130, .GGA_C_PBE),
   (131, .GGA_C_LYP), (133, .GGA_C_PBE_SOL), (134, .GGA_C_PW91),
   (135, .GGA_C_AM05), (999, .X_999)]

/-- Modelled from the spec: resolution of an integer code through the
external Functional Code Provider, `LibxcFuncs(n)` in the source.  A code
absent from the table fails (Python `ValueError`), here `none`. -/
def LibxcFuncs.fromCode (n : Nat) : Option LibxcFuncs :=
  (libxc_codes.find? (fun p => p.1 == n)).map (fun p => p.2)

/-- The `type_name` namedtuple used as the value of the alias table:
a canonical `type` ("LDA"/"GGA"/...) and alias `name` (e.g. "PBE"). -/
structure TypeNameRec where
  type : String
  name : String
  deriving DecidableEq

/-- An alias-registry key: either a single combined code or an
(exchange, correlation) pair, as in the AliasKey of the spec.  The reference
table only contains pairs, but `from_name` and the accessors handle both
shapes. -/
inductive AliasKey where
  | single : LibxcFuncs → AliasKey
  | pair : LibxcFuncs → LibxcFuncs → AliasKey
  deriving DecidableEq

/-- The error kinds of the module, named as in the error taxonomy of the spec.
`invalidArgument` is the `ValueError` of `__init__`; `unknownLegacyCode`
the `KeyError` on the ixc table; `malformedLegacyCode` the length
assertion; `invalidFunctionalKind` the kind assertion after the swap;
`unknownFunctionalName` the `ValueError` of `from_name`;
`unknownFunctional` the `NotImplementedError` of `type`;
`unknownLibxcCode` the `ValueError` of `LibxcFuncs(int)`;
`intParseError` the `ValueError` of `int()`; `attributeError` a Python
attribute access on `None`. -/
inductive XcError where
  | invalidArgument : String → XcError
  | unknownLegacyCode : String → XcError
  | malformedLegacyCode : XcError
  | invalidFunctionalKind : XcError
  | unknownFunctionalName : String → XcError
  | unknownFunctional : XcError
  | unknownLibxcCode : XcError
  | intParseError : XcError
  | attributeError : XcError
  deriving DecidableEq

/-- The `XcFunctional` value: fields `xc`, `x`, `c` exactly as stored by
`__init__` (each possibly `None`). -/
structure XcFunctional where
  xc : Option LibxcFuncs
  x : Option LibxcFuncs
  c : Option LibxcFuncs
  deriving DecidableEq

/-- The alias registry `XcFunctional.aliases`: an ordered table from
code pairs to `type_name` records, transcribed from the source. -/
def XcFunctional.aliases : List (AliasKey × TypeNameRec) :=
  [(AliasKey.pair .LDA_X .LDA_C_PW, ⟨("LDA"), ("PW")⟩),
   (AliasKey.pair .GGA_X_PW91 .GGA_C_PW91, ⟨("GGA"), ("PW91")⟩),
   (AliasKey.pair .GGA_X_PBE .GGA_C_PBE, ⟨("GGA"), ("PBE")⟩),
   (AliasKey.pair .GGA_X_RPBE .GGA_C_PBE, ⟨("GGA"), ("RPBE")⟩),
   (AliasKey.pair .GGA_X_PBE_R .GGA_C_PBE, ⟨("GGA"), ("revPBE")⟩),
   (AliasKey.pair .GGA_X_PBE_SOL .GGA_C_PBE_SOL, ⟨("GGA"), ("PBEsol")⟩),
   (AliasKey.pair .GGA_X_AM05 .GGA_C_AM05, ⟨("GGA"), ("AM05")⟩),
   (AliasKey.pair .GGA_X_B88 .GGA_C_LYP, ⟨("GGA"), ("BLYP")⟩)]

/-- The ixc translation table `XcFunctional.abinitixc_to_libxc`:
legacy code string to (x, c) pair. -/
def XcFunctional.abinitixc_to_libxc : List (String × LibxcFuncs × LibxcFuncs) :=
  [(("11"), LibxcFuncs.GGA_X_PBE, LibxcFuncs.GGA_C_PBE)]

/-- `XcFunctional.__init__`: consistency check, then verbatim storage of
the three fields.  The two `ValueError` branches become
`XcError.invalidArgument` with the message of the source. -/
def XcFunctional.make (xc x c : Option LibxcFuncs) : Except XcError XcFunctional :=
  match xc with
  | none =>
    if x = none ∨ c = none then
      Except.error (XcError.invalidArgument ("x or c must be specified when xc is None"))
    else Except.ok ⟨xc, x, c⟩
  | some _ =>
    if x ≠ none ∨ c ≠ none then
      Except.error (XcError.invalidArgument ("x and c should be None when xc is specified"))
    else Except.ok ⟨xc, x, c⟩

/-- Registry lookup of a key, first match in table order
(Python `key in dict` / `dict[key]` on the ordered alias table). -/
def XcFunctional.findAlias (k : AliasKey) : Option TypeNameRec :=
  (XcFunctional.aliases.find? (fun p => p.1 == k)).map (fun p => p.2)

/-- The membership test `self.xc in self.aliases` of the accessors: the
single combined code viewed as an alias key (Python `None in aliases`
is false, and an enum member never equals a tuple key). -/
def XcFunctional.xcAliasHit (f : XcFunctional) : Option TypeNameRec :=
  match f.xc with
  | some v => XcFunctional.findAlias (AliasKey.single v)
  | none => none

/-- The membership test `(self.x, self.c) in self.aliases` of the
accessors: the pair only matches a pair key when both components are
present (a tuple containing `None` never equals a key of enum members). -/
def XcFunctional.pairAliasHit (f : XcFunctional) : Option TypeNameRec :=
  match f.x, f.c with
  | some a, some b => XcFunctional.findAlias (AliasKey.pair a b)
  | _, _ => none

/-- `XcFunctional.type`: registry lookup of the combined code, then of the
(x, c) pair; with no match the source raises `NotImplementedError`
unconditionally (the composed fallback below the raise is dead code). -/
def XcFunctional.type (f : XcFunctional) : Except XcError String :=
  match f.xcAliasHit with
  | some tn => Except.ok tn.type
  | none =>
    match f.pairAliasHit with
    | some tn => Except.ok tn.type
    | none => Except.error XcError.unknownFunctional

/-- `XcFunctional.name`: registry lookup of the combined code, then of the
(x, c) pair; with no match, the libxc name of the combined code when present,
otherwise the composed string `x.name + "+" + c.name`.  `none` is the
Python `AttributeError` of `None.name` on an object violating the
constructor invariant. -/
def XcFunctional.name (f : XcFunctional) : Option String :=
  match f.xcAliasHit with
  | some tn => some tn.name
  | none =>
    match f.pairAliasHit with
    | some tn => some tn.name
    | none =>
      match f.xc with
      | some v => some v.name
      | none =>
        match f.x, f.c with
        | some a, some b => some (a.name ++ "+" ++ b.name)
        | _, _ => none

/-- `XcFunctional.type_name`: the string `type + "-" + name`, where a
failure of `type` propagates first (Python evaluates the list
`[self.type, self.name]` left to right). -/
def XcFunctional.type_name (f : XcFunctional) : Except XcError String := do
  let t ← f.type
  match f.name with
  | some n => Except.ok (t ++ "-" ++ n)
  | none => Except.error XcError.attributeError

/-- `XcFunctional.from_name`: scan the alias table in order for the first
record whose `name` equals the argument; rebuild from the matching key
(single code or pair); otherwise the `ValueError` "Cannot find name". -/
def XcFunctional.from_name (nm : String) : Except XcError XcFunctional :=
  match XcFunctional.aliases.find? (fun p => p.2.name == nm) with
  | some (AliasKey.single v, _) => XcFunctional.make (some v) none none
  | some (AliasKey.pair a b, _) => XcFunctional.make none (some a) (some b)
  | none => Except.error (XcError.unknownFunctionalName nm)

/-- Python whitespace for `str.strip`: space, tab, newline, carriage
return, vertical tab, form feed. -/
def pyIsSpace (ch : Char) : Bool :=
  ch == ' ' || ch == '\t' || ch == '\n' || ch == '\r' || ch == '\x0b' || ch == '\x0c'

/-- Python `str.strip()` on the character list of a string. -/
def pyStrip (s : List Char) : List Char :=
  ((s.dropWhile pyIsSpace).reverse.dropWhile pyIsSpace).reverse

/-- Python `int()` on a plain digit string (the three-character halves of
the packed ixc form): all characters must be decimal digits. -/
def pyToNat? (s : List Char) : Option Nat :=
  if s ≠ [] ∧ s.all Char.isDigit then
    some (s.foldl (fun n ch => n * 10 + (ch.toNat - 48)) 0)
  else none

/-- `XcFunctional.from_abinit_ixc`: strip the input; without a leading "-",
translate through the ixc table (`KeyError` when absent); with a leading
"-", require exactly 6 remaining characters (assertion), split into two
3-character halves, parse each as an integer and resolve it to a libxc
member, swap the two when the first is not exchange-kind, then require
exchange-kind plus correlation-kind (assertion) and construct from the
pair. -/
def XcFunctional.from_abinit_ixc (ixc_string : String) : Except XcError XcFunctional :=
  let ixc := pyStrip ixc_string.data
  if !(List.isPrefixOf ['-'] ixc) then
    match XcFunctional.abinitixc_to_libxc.find? (fun p => p.1 == String.mk ixc) with
    | some (_, xv, cv) => XcFunctional.make none (some xv) (some cv)
    | none => Except.error (XcError.unknownLegacyCode (String.mk ixc))
  else
    let rest := ixc.drop 1
    if rest.length = 6 then
      let hi := rest.take 3
      let lo := rest.drop 3
      match pyToNat? hi, pyToNat? lo with
      | some fi, some li =>
        match LibxcFuncs.fromCode fi, LibxcFuncs.fromCode li with
        | some x0, some c0 =>
          let p := if !x0.is_x_kind then (c0, x0) else (x0, c0)
          if p.1.is_x_kind && p.2.is_c_kind then
            XcFunctional.make none (some p.1) (some p.2)
          else Except.error XcError.invalidFunctionalKind
        | _, _ => Except.error XcError.unknownLibxcCode
      | _, _ => Except.error XcError.intParseError
    else Except.error XcError.malformedLegacyCode

/-- The three decimal digits of a number below 1000, zero-padded. -/
def natDigits3 (n : Nat) : List Char :=
  [Char.ofNat (48 + n / 100 % 10), Char.ofNat (48 + n / 10 % 10), Char.ofNat (48 + n % 10)]

/-- A packed six-digit Abinit ixc string: "-" followed by the two integer
codes, each zero-padded to three digits. -/
def packedIxc (a b : Nat) : String :=
  String.mk ('-' :: (natDigits3 a ++ natDigits3 b))

/-- The right-hand operand of `XcFunctional.__eq__` / `__ne__`: Python
`None`, another `XcFunctional`, or (assumed otherwise) a string. -/
inductive EqOther where
  | pyNone : EqOther
  | func : XcFunctional → EqOther
  | str : String → EqOther

/-- `XcFunctional.__eq__`: `None` compares unequal at once; another
`XcFunctional` compares by derived name; anything else is assumed to be a
string and compared against the derived name.  `none` is a Python
`AttributeError` while deriving a name on an invariant-violating object. -/
def XcFunctional.eqPy (self : XcFunctional) : EqOther → Option Bool
  | EqOther.pyNone => some false
  | EqOther.func other =>
    match self.name, other.name with
    | some a, some b => some (a == b)
    | _, _ => none
  | EqOther.str s => self.name.map (fun n => n == s)

/-- `XcFunctional.__ne__`: the negation of `__eq__`. -/
def XcFunctional.nePy (self : XcFunctional) (other : EqOther) : Option Bool :=
  (self.eqPy other).map (fun b => !b)

/-- `XcFunctional.__hash__`: the hash of the derived name string. -/
def XcFunctional.hashPy (self : XcFunctional) : Option UInt64 :=
  self.name.map String.hash

/-- Decidable equality for `Except` results, so that concrete runs of the
fallible operations can be checked by evaluation. -/
instance {ε α : Type} [DecidableEq ε] [DecidableEq α] : DecidableEq (Except ε α) := fun a b =>
  match a, b with
  | Except.error e, Except.error f => decidable_of_iff (e = f) (by simp)
  | Except.ok x, Except.ok y => decidable_of_iff (x = y) (by simp)
  | Except.error _, Except.ok _ => isFalse (fun h => Except.noConfusion h)
  | Except.ok _, Except.error _ => isFalse (fun h => Except.noConfusion h)

/-- Inversion of the modelled code resolution: a successful resolution
comes from an entry of the code table. -/
theorem LibxcFuncs.fromCode_mem {n : Nat} {v : LibxcFuncs}
    (h : LibxcFuncs.fromCode n = some v) : (n, v) ∈ libxc_codes := by
  unfold LibxcFuncs.fromCode at h
  rcases hf : libxc_codes.find? (fun p => p.1 == n) with _ | p
  · rw [hf] at h
    cases h
  · rw [hf] at h
    simp only [Option.map_some'] at h
    have hmem := List.mem_of_find?_eq_some hf
    have hp := List.find?_some hf
    obtain ⟨p1, p2⟩ := p
    simp only at h hp
    have h1 : p1 = n := by simpa using hp
    subst h1
    obtain rfl : p2 = v := by simpa using h
    exact hmem

/-- A key none of whose records is in the alias table is not found by the
registry lookup. -/
theorem XcFunctional.findAlias_eq_none {k : AliasKey}
    (h : ∀ tn, (k, tn) ∉ XcFunctional.aliases) : XcFunctional.findAlias k = none := by
  unfold XcFunctional.findAlias
  rw [Option.map_eq_none']
  rw [List.find?_eq_none]
  intro p hp hbeq
  obtain ⟨pk, ptn⟩ := p
  have hk : pk = k := by simpa using hbeq
  subst hk
  exact h ptn hp

set_option maxHeartbeats 1000000

/-- C1: for every record in the alias registry, constructing an identity
via from_name with the name of that record and then reading type_name yields
exactly the type of the record, a hyphen, and the name of the record. -/
theorem from_name_type_name_roundtrip (k : AliasKey) (tn : TypeNameRec)
    (h : (k, tn) ∈ XcFunctional.aliases) :
    (XcFunctional.from_name tn.name).bind XcFunctional.type_name
      = Except.ok (tn.type ++ "-" ++ tn.name) := by
  simp only [XcFunctional.aliases] at h
  fin_cases h <;> decide

/-- Witness for C1 at the PBE record. -/
theorem from_name_type_name_roundtrip_pbe :
    (XcFunctional.from_name ("PBE")).bind XcFunctional.type_name = Except.ok ("GGA-PBE") :=
  from_name_type_name_roundtrip (AliasKey.pair .GGA_X_PBE .GGA_C_PBE)
    ⟨("GGA"), ("PBE")⟩ (by decide)

/-- C2: for every valid packed six-digit legacy string, both digit orders
resolve to the same identity: the string packing (exchange code,
correlation code) and the string packing (correlation code, exchange code)
construct equal values, because the kind-based disambiguation swap is
applied when the first resolved code is not exchange-kind. -/
theorem from_abinit_ixc_packed_order_irrelevant (a b : Nat) (x c : LibxcFuncs)
    (ha : LibxcFuncs.fromCode a = some x) (hb : LibxcFuncs.fromCode b = some c)
    (hx : x.is_x_kind = true) (hc : c.is_c_kind = true) :
    XcFunctional.from_abinit_ixc (packedIxc a b) = XcFunctional.from_abinit_ixc (packedIxc b a) := by
  have ha' := LibxcFuncs.fromCode_mem ha
  have hb' := LibxcFuncs.fromCode_mem hb
  simp only [libxc_codes] at ha' hb'
  fin_cases ha' <;> fin_cases hb' <;>
    first
      | exact absurd hx (by decide)
      | exact absurd hc (by decide)
      | decide

/-- Witness for C2 at the PBE pair of codes (101, 130). -/
theorem from_abinit_ixc_packed_order_irrelevant_pbe :
    XcFunctional.from_abinit_ixc ("-101130") = XcFunctional.from_abinit_ixc ("-130101") := by
  have h := from_abinit_ixc_packed_order_irrelevant 101 130
    LibxcFuncs.GGA_X_PBE LibxcFuncs.GGA_C_PBE (by decide) (by decide) (by decide) (by decide)
  rwa [(by decide : packedIxc 101 130 = ("-101130")),
       (by decide : packedIxc 130 101 = ("-130101"))] at h

/-- C3: direct construction fails with the invalid-argument error exactly
when the mutual-exclusivity invariant is violated (combined code null with
either part null, or combined code non-null with either part non-null);
otherwise it succeeds and stores the three fields verbatim. -/
theorem make_invariant_check (xc x c : Option LibxcFuncs) :
    ((∃ msg, XcFunctional.make xc x c = Except.error (XcError.invalidArgument msg)) ↔
      ((xc = none ∧ (x = none ∨ c = none)) ∨ (xc ≠ none ∧ (x ≠ none ∨ c ≠ none))))
    ∧ (((xc = none ∧ x ≠ none ∧ c ≠ none) ∨ (xc ≠ none ∧ x = none ∧ c = none)) →
        XcFunctional.make xc x c = Except.ok ⟨xc, x, c⟩) := by
  cases xc <;> cases x <;> cases c <;> simp [XcFunctional.make]

/-- Witness for C3 at a valid (x, c) pair. -/
theorem make_invariant_check_instance :
    XcFunctional.make none (some LibxcFuncs.GGA_X_PBE) (some LibxcFuncs.GGA_C_PBE)
      = Except.ok ⟨none, some LibxcFuncs.GGA_X_PBE, some LibxcFuncs.GGA_C_PBE⟩ :=
  (make_invariant_check none (some LibxcFuncs.GGA_X_PBE) (some LibxcFuncs.GGA_C_PBE)).2
    (Or.inl ⟨rfl, (by decide), (by decide)⟩)

/-- C4: the identity constructed from the legacy numeric code string "11"
is equal, under the name-based equality contract, to the identity
constructed from the alias name "PBE". -/
theorem from_abinit_ixc_11_eq_from_name_pbe :
    ∃ fa fb, XcFunctional.from_abinit_ixc ("11") = Except.ok fa
      ∧ XcFunctional.from_name ("PBE") = Except.ok fb
      ∧ fa.eqPy (EqOther.func fb) = some true := by
  refine ⟨⟨none, some LibxcFuncs.GGA_X_PBE, some LibxcFuncs.GGA_C_PBE⟩,
          ⟨none, some LibxcFuncs.GGA_X_PBE, some LibxcFuncs.GGA_C_PBE⟩, ?_, ?_, ?_⟩ <;> decide

/-- Both registry membership tests of the accessors fail on an identity
whose combined code is not a registry key and whose (x, c) pair is not a
registry key. -/
theorem XcFunctional.aliasHits_none (f : XcFunctional)
    (h1 : ∀ v, f.xc = some v → ∀ tn, (AliasKey.single v, tn) ∉ XcFunctional.aliases)
    (h2 : ∀ a b, f.x = some a → f.c = some b →
      ∀ tn, (AliasKey.pair a b, tn) ∉ XcFunctional.aliases) :
    f.xcAliasHit = none ∧ f.pairAliasHit = none := by
  obtain ⟨fxc, fx, fc⟩ := f
  constructor
  · unfold XcFunctional.xcAliasHit
    rcases hxc : fxc with _ | v
    · rfl
    · subst hxc
      exact XcFunctional.findAlias_eq_none (h1 v rfl)
  · unfold XcFunctional.pairAliasHit
    rcases hx : fx with _ | a
    · rfl
    · rcases hc : fc with _ | b
      · rfl
      · subst hx
        subst hc
        exact XcFunctional.findAlias_eq_none (h2 a b rfl rfl)

/-- C5: on an identity whose combined code is not an alias-registry key
and whose (exchange, correlation) pair is not an alias-registry key,
reading type fails with the unknown-functional hard error (the composed
fallback below the raise is dead code and is never returned). -/
theorem type_error_when_no_alias (f : XcFunctional)
    (h1 : ∀ v, f.xc = some v → ∀ tn, (AliasKey.single v, tn) ∉ XcFunctional.aliases)
    (h2 : ∀ a b, f.x = some a → f.c = some b →
      ∀ tn, (AliasKey.pair a b, tn) ∉ XcFunctional.aliases) :
    f.type = Except.error XcError.unknownFunctional := by
  obtain ⟨e1, e2⟩ := XcFunctional.aliasHits_none f h1 h2
  unfold XcFunctional.type
  rw [e1, e2]

/-- Witness for C5 at the unregistered pair (GGA_X_B88, GGA_C_PBE). -/
theorem type_error_when_no_alias_instance :
    XcFunctional.type ⟨none, some LibxcFuncs.GGA_X_B88, some LibxcFuncs.GGA_C_PBE⟩
      = Except.error XcError.unknownFunctional := by
  apply type_error_when_no_alias
  · intro v hv
    exact Option.noConfusion hv
  · intro a b ha hb tn hmem
    obtain rfl : a = LibxcFuncs.GGA_X_B88 := by simpa using ha.symm
    obtain rfl : b = LibxcFuncs.GGA_C_PBE := by simpa using hb.symm
    simp [XcFunctional.aliases] at hmem

/-- C6: on an identity whose combined code is not an alias-registry key
and whose (exchange, correlation) pair is not an alias-registry key,
reading name succeeds with the composed fallback: the libxc name of the
combined code when it is set, otherwise the name of the exchange code,
a plus sign, and the name of the correlation code. -/
theorem name_fallback_when_no_alias (f : XcFunctional)
    (h1 : ∀ v, f.xc = some v → ∀ tn, (AliasKey.single v, tn) ∉ XcFunctional.aliases)
    (h2 : ∀ a b, f.x = some a → f.c = some b →
      ∀ tn, (AliasKey.pair a b, tn) ∉ XcFunctional.aliases) :
    (∀ v, f.xc = some v → f.name = some v.name) ∧
    (f.xc = none → ∀ a b, f.x = some a → f.c = some b →
      f.name = some (a.name ++ "+" ++ b.name)) := by
  obtain ⟨e1, e2⟩ := XcFunctional.aliasHits_none f h1 h2
  constructor
  · intro v hv
    unfold XcFunctional.name
    rw [e1, e2, hv]
  · intro hxc a b hx hc
    unfold XcFunctional.name
    rw [e1, e2, hxc, hx, hc]

/-- Witness for C6 at the unregistered pair (GGA_X_B88, GGA_C_PBE). -/
theorem name_fallback_when_no_alias_instance :
    XcFunctional.name ⟨none, some LibxcFuncs.GGA_X_B88, some LibxcFuncs.GGA_C_PBE⟩
      = some ("GGA_X_B88+GGA_C_PBE") := by
  have h := name_fallback_when_no_alias
    ⟨none, some LibxcFuncs.GGA_X_B88, some LibxcFuncs.GGA_C_PBE⟩
    (fun v hv => Option.noConfusion hv)
    (fun a b ha hb tn hmem => by
      obtain rfl : a = LibxcFuncs.GGA_X_B88 := by simpa using ha.symm
      obtain rfl : b = LibxcFuncs.GGA_C_PBE := by simpa using hb.symm
      simp [XcFunctional.aliases] at hmem)
  exact h.2 rfl LibxcFuncs.GGA_X_B88 LibxcFuncs.GGA_C_PBE rfl rfl

/-- C7: for every input string that, after stripping whitespace, starts
with "-" but whose remainder is not exactly 6 characters long,
from_abinit_ixc fails with the malformed-legacy-code assertion error. -/
theorem from_abinit_ixc_length_assert (s : String)
    (h1 : List.isPrefixOf ['-'] (pyStrip s.data) = true)
    (h2 : ((pyStrip s.data).drop 1).length ≠ 6) :
    XcFunctional.from_abinit_ixc s = Except.error XcError.malformedLegacyCode := by
  have h3 : (pyStrip s.data).length ≠ 7 := by
    intro hh
    apply h2
    simp [hh]
  simp [XcFunctional.from_abinit_ixc, h1, h3]

/-- Witness for C7 at "-12345" (five digits after the sign). -/
theorem from_abinit_ixc_length_assert_12345 :
    XcFunctional.from_abinit_ixc ("-12345") = Except.error XcError.malformedLegacyCode :=
  from_abinit_ixc_length_assert ("-12345") (by decide) (by decide)

/-- C8: for every length-valid packed legacy string that resolves to two
codes that are not one exchange-kind plus one correlation-kind even after
the possible disambiguation swap, from_abinit_ixc fails with the
invalid-functional-kind assertion error. -/
theorem from_abinit_ixc_kind_assert (a b : Nat) (x0 c0 : LibxcFuncs)
    (ha : LibxcFuncs.fromCode a = some x0) (hb : LibxcFuncs.fromCode b = some c0)
    (hk : ((if !x0.is_x_kind then (c0, x0) else (x0, c0)).1.is_x_kind
            && (if !x0.is_x_kind then (c0, x0) else (x0, c0)).2.is_c_kind) = false) :
    XcFunctional.from_abinit_ixc (packedIxc a b) = Except.error XcError.invalidFunctionalKind := by
  have ha' := LibxcFuncs.fromCode_mem ha
  have hb' := LibxcFuncs.fromCode_mem hb
  simp only [libxc_codes] at ha' hb'
  fin_cases ha' <;> fin_cases hb' <;>
    first
      | exact absurd hk (by decide)
      | decide

/-- Witness for C8 at "-999999", whose halves both resolve to an
exchange-kind code. -/
theorem from_abinit_ixc_kind_assert_999999 :
    XcFunctional.from_abinit_ixc ("-999999") = Except.error XcError.invalidFunctionalKind := by
  have h := from_abinit_ixc_kind_assert 999 999 LibxcFuncs.X_999 LibxcFuncs.X_999
    (by decide) (by decide) (by decide)
  rwa [(by decide : packedIxc 999 999 = ("-999999"))] at h

/-- Every identity produced by a successful direct construction has a
derived name: the invariant stored by the constructor rules out the
attribute error of the name fallback. -/
theorem XcFunctional.make_ok_name (xc x c : Option LibxcFuncs) (f : XcFunctional)
    (h : XcFunctional.make xc x c = Except.ok f) : ∃ n, f.name = some n := by
  cases xc <;> cases x <;> cases c <;> simp [XcFunctional.make] at h <;> subst h <;>
    unfold XcFunctional.name <;>
    rcases hxh : XcFunctional.xcAliasHit _ with _ | tn1 <;>
    rcases hph : XcFunctional.pairAliasHit _ with _ | tn2 <;>
    simp [hxh, hph]

/-- C9: the name-based equality of identities is reflexive, symmetric and
transitive, holds between any two identities deriving the same name, is
consistent with hashing, and holds against the raw derived name
string. -/
theorem eq_hash_contract (a b d : XcFunctional) (na nb nd : String)
    (ha : a.name = some na) (hb : b.name = some nb) (hd : d.name = some nd) :
    (a.eqPy (EqOther.func a) = some true) ∧
    (∀ r, a.eqPy (EqOther.func b) = some r → b.eqPy (EqOther.func a) = some r) ∧
    (a.eqPy (EqOther.func b) = some true → b.eqPy (EqOther.func d) = some true →
      a.eqPy (EqOther.func d) = some true) ∧
    (na = nb → a.eqPy (EqOther.func b) = some true) ∧
    (a.eqPy (EqOther.func b) = some true → a.hashPy = b.hashPy) ∧
    (a.eqPy (EqOther.str na) = some true) := by
  simp only [XcFunctional.eqPy, XcFunctional.hashPy, ha, hb, hd, Option.map_some']
  refine ⟨by simp, ?_, ?_, ?_, ?_, by simp⟩
  · intro r h
    obtain rfl : (na == nb) = r := by simpa using h
    by_cases hh : na = nb
    · subst hh
      rfl
    · simp [hh, Ne.symm hh]
  · intro h1 h2
    have e1 : na = nb := by simpa using h1
    have e2 : nb = nd := by simpa using h2
    simp [e1.trans e2]
  · intro h
    simp [h]
  · intro h
    have e : na = nb := by simpa using h
    simp [e]

/-- Witness for C9 at the PBE identity compared with itself. -/
theorem eq_hash_contract_instance :
    XcFunctional.eqPy ⟨none, some LibxcFuncs.GGA_X_PBE, some LibxcFuncs.GGA_C_PBE⟩
      (EqOther.func ⟨none, some LibxcFuncs.GGA_X_PBE, some LibxcFuncs.GGA_C_PBE⟩)
      = some true :=
  (eq_hash_contract ⟨none, some LibxcFuncs.GGA_X_PBE, some LibxcFuncs.GGA_C_PBE⟩
    ⟨none, some LibxcFuncs.GGA_X_PBE, some LibxcFuncs.GGA_C_PBE⟩
    ⟨none, some LibxcFuncs.GGA_X_PBE, some LibxcFuncs.GGA_C_PBE⟩
    ("PBE") ("PBE") ("PBE") (by decide) (by decide) (by decide)).1

/-- C10: comparing any identity to the null value returns not-equal at
once, without consulting the derived name: equality is false and
inequality is true even on an object whose name would not compute. -/
theorem eq_none_is_false (a : XcFunctional) :
    a.eqPy EqOther.pyNone = some false ∧ a.nePy EqOther.pyNone = some true :=
  ⟨rfl, rfl⟩
